import Mathlib

/-!
Verification of the streaming session driver of the dictation client
(`src/python/service/streaming_recognizer.py`).

The development shallowly embeds the two core components:

* the chunked request producer `RequestIterator` (configuration handshake
  followed by fixed-size audio frames, pull-based), and
* the response aggregator inside
  `StreamingRecognizer.recognize_audio_content` (the reduction loop over
  the server's streamed responses).

Bytes are modelled as `List ℕ`, Python `//` on non-negative integers as
`Nat` division, Python floats used only through `min` and comparisons as
`ℚ`, and Python exceptions (`StopIteration`, `IndexError`) as `Option`.
-/

/-- Settings value object: the accessor methods `time_offsets()`,
`single_utterance()`, `interim_results()`, `session_id()` and
`timeouts_map()` of the Python settings collaborator become fields. -/
structure Settings where
  time_offsets : Bool
  single_utterance : Bool
  interim_results : Bool
  session_id : Option String
  timeouts_map : List (String × ℕ)
deriving DecidableEq

/-- One `config_fields` entry of the configuration request (key/value,
value already formatted as a string as by `"{}".format(...)`). -/
structure ConfigField where
  key : String
  value : String
deriving DecidableEq

/-- `RecognitionConfig` message as filled in by
`StreamingRecognizer.build_configuration_request`. -/
structure RecognitionConfig where
  encoding : String
  sample_rate_hertz : ℕ
  language_code : String
  enable_word_time_offsets : Bool
  max_alternatives : ℕ
  config_fields : List ConfigField
deriving DecidableEq

/-- `StreamingRecognitionConfig` message. -/
structure StreamingRecognitionConfig where
  config : RecognitionConfig
  single_utterance : Bool
  interim_results : Bool
deriving DecidableEq

/-- `StreamingRecognizeRequest`: either a configuration request (only the
`streaming_config` field set) or an audio frame (only `audio_content`
set). The Python protobuf message is a struct of optional fields, but the
client only ever builds one of the two shapes, so a sum type is the
faithful image of the values that occur. -/
inductive StreamingRecognizeRequest where
  | streaming_config : StreamingRecognitionConfig → StreamingRecognizeRequest
  | audio_content : List ℕ → StreamingRecognizeRequest
deriving DecidableEq

/-- `StreamingRecognizer.build_configuration_request(sampling_rate, settings)`:
builds the configuration request, embedding the fixed encoding and
language constants, the settings flags, and the timeout map serialized as
string-valued `config_fields`. -/
def build_configuration_request (sampling_rate : ℕ) (settings : Settings) :
    StreamingRecognizeRequest :=
  StreamingRecognizeRequest.streaming_config
    { config :=
        { encoding := "LINEAR16"
          sample_rate_hertz := sampling_rate
          language_code := "pl-PL"
          enable_word_time_offsets := settings.time_offsets
          max_alternatives := 1
          config_fields := settings.timeouts_map.map fun kv =>
            { key := kv.1, value := toString kv.2 } }
      single_utterance := settings.single_utterance
      interim_results := settings.interim_results }

/-- State of `RequestIterator` (the fields set in `__init__`; the
`request_builder` dictionary keyed by `is_initial_request` is realized
directly as the dispatch in `next`). -/
structure RequestIterator where
  audio_content : List ℕ
  settings : Settings
  audio_frame_rate : ℕ
  frame_samples_size : ℕ
  is_initial_request : Bool
  data_index : ℕ
deriving DecidableEq

/-- `RequestIterator.__init__(audio, settings)` with
`audio = {samples, frame_rate}`: `frame_len = 200`, `sample_width = 2`,
`frame_samples_size = (frame_rate // 1000) * frame_len * sample_width`. -/
def RequestIterator.init (samples : List ℕ) (frame_rate : ℕ)
    (settings : Settings) : RequestIterator :=
  { audio_content := samples
    settings := settings
    audio_frame_rate := frame_rate
    frame_samples_size := frame_rate / 1000 * 200 * 2
    is_initial_request := true
    data_index := 0 }

/-- `RequestIterator.__next__` (one pull under the lock, dispatching on
`is_initial_request` exactly as the `request_builder` table does).
Returns the produced request, or `none` for `StopIteration`, paired with
the successor state. Note that `_normal_request` slices first, then
advances `data_index`, then checks for the end — so on `StopIteration`
the already-taken slice is discarded and the updated `data_index`
persists. Python slice `xs[i : i + n]` clamps, i.e. is
`(xs.drop i).take n`. -/
def RequestIterator.next (it : RequestIterator) :
    Option StreamingRecognizeRequest × RequestIterator :=
  if it.is_initial_request then
    (some (build_configuration_request it.audio_frame_rate it.settings),
      { it with is_initial_request := false })
  else
    let data := (it.audio_content.drop it.data_index).take it.frame_samples_size
    let idx := it.data_index + it.frame_samples_size
    if it.audio_content.length ≤ idx then
      (none, { it with data_index := idx })
    else
      (some (StreamingRecognizeRequest.audio_content data),
        { it with data_index := idx })

/-- The request produced by one pull. -/
def pullOut (it : RequestIterator) : Option StreamingRecognizeRequest :=
  it.next.1

/-- The iterator state after one pull. -/
def pullState (it : RequestIterator) : RequestIterator :=
  it.next.2

/-- Iterator state after `n` pulls. -/
def stateAfter (it : RequestIterator) : ℕ → RequestIterator
  | 0 => it
  | n + 1 => pullState (stateAfter it n)

/-- Iterating the producer to exhaustion (with fuel `n`): the list of
requests produced before the first `StopIteration`. -/
def runIterator : ℕ → RequestIterator → List StreamingRecognizeRequest
  | 0, _ => []
  | n + 1, it =>
    match it.next with
    | (none, _) => []
    | (some c, it') => c :: runIterator n it'

/-- The audio payload of a request (`[]` for the configuration request). -/
def audioPayload : StreamingRecognizeRequest → List ℕ
  | StreamingRecognizeRequest.streaming_config _ => []
  | StreamingRecognizeRequest.audio_content data => data

/-- Concatenation of the audio payloads of a request sequence. -/
def audioConcat (reqs : List StreamingRecognizeRequest) : List ℕ :=
  (reqs.map audioPayload).flatten

/-- Whether a request is the configuration request. -/
def isConfigRequest : StreamingRecognizeRequest → Bool
  | StreamingRecognizeRequest.streaming_config _ => true
  | StreamingRecognizeRequest.audio_content _ => false

/-- The buffer positions covered by the audio payload (if any) emitted by
the pull performed at state `stateAfter it0 k`: the payload is the slice
of `audio_content` starting at `data_index`, so it occupies that many
consecutive positions from `data_index`. -/
def pullPositions (it0 : RequestIterator) (k : ℕ) : List ℕ :=
  match (stateAfter it0 k).next with
  | (some (StreamingRecognizeRequest.audio_content data), _) =>
      List.range' (stateAfter it0 k).data_index data.length
  | _ => []

/-- A concrete settings object used for concrete evaluations. -/
def sampleSettings : Settings :=
  { time_offsets := false
    single_utterance := false
    interim_results := false
    session_id := none
    timeouts_map := [] }

/-- One word of a recognition alternative (`word`, `start_time`,
`end_time`). Times and confidences enter the aggregator only through
`min`, comparison and verbatim copying, so they are modelled as `ℚ`. -/
structure Word where
  word : String
  start_time : ℚ
  end_time : ℚ
deriving DecidableEq

/-- One alternative of a recognition result. -/
structure SpeechRecognitionAlternative where
  transcript : String
  confidence : ℚ
  words : List Word
deriving DecidableEq

/-- One result of a streaming response (`is_final`, `alternatives`). -/
structure StreamingRecognitionResult where
  is_final : Bool
  alternatives : List SpeechRecognitionAlternative
deriving DecidableEq

/-- The `error` field of a response (numeric code, message); code `0`
is protobuf's default and plays as falsy in `if recognition.error.code`. -/
structure RecognitionError where
  code : ℕ
  message : String
deriving DecidableEq

/-- One streamed server response. -/
structure StreamingRecognizeResponse where
  error : RecognitionError
  results : List StreamingRecognitionResult
deriving DecidableEq

/-- The consolidated session result built at the end of
`recognize_audio_content`. -/
structure SessionResult where
  transcript : String
  alignment : List (List ℚ)
  confidence : ℚ
deriving DecidableEq

/-- The aggregator's accumulated state: the local variables
`confirmed_results`, `alignment`, `confidence` of
`recognize_audio_content`. -/
structure AggState where
  confirmed_results : List String
  alignment : List (List ℚ)
  confidence : ℚ
deriving DecidableEq

/-- The `for word in first.alternatives[0].words` loop: skip the sentinel
`'<eps>'`, append the word text to `confirmed_results` and its
`[start_time, end_time]` pair to `alignment`, in order. -/
def processWords (words : List Word) (confirmed : List String)
    (alignment : List (List ℚ)) : List String × List (List ℚ) :=
  match words with
  | [] => (confirmed, alignment)
  | w :: rest =>
    if w.word ≠ "<eps>" then
      processWords rest (confirmed ++ [w.word])
        (alignment ++ [[w.start_time, w.end_time]])
    else
      processWords rest confirmed alignment

/-- Body of the `for recognition in recognitions` loop for one response:
error responses are only printed; otherwise, if the results list is
non-empty and its first result is final, the first alternative is
accumulated (word-by-word when `time_offsets`, whole transcript
otherwise) and the confidence is min-reduced; a non-final first result is
only printed. `none` models the `IndexError` that
`first.alternatives[0]` raises when a final first result has no
alternatives. -/
def processResponse (time_offsets : Bool) (s : AggState)
    (r : StreamingRecognizeResponse) : Option AggState :=
  if r.error.code ≠ 0 then
    some s
  else
    match r.results with
    | [] => some s
    | first :: _ =>
      if first.is_final then
        match first.alternatives with
        | [] => none
        | alt :: _ =>
          if time_offsets then
            let pair := processWords alt.words s.confirmed_results s.alignment
            some { confirmed_results := pair.1
                   alignment := pair.2
                   confidence := min s.confidence alt.confidence }
          else
            some { confirmed_results := s.confirmed_results ++ [alt.transcript]
                   alignment := s.alignment
                   confidence := min s.confidence alt.confidence }
      else
        some s

/-- The reduction loop and finalization of
`StreamingRecognizer.recognize_audio_content`, taking the response
sequence delivered by the transport as a list: starting from
`confirmed_results = []`, `alignment = []`, `confidence = 1.0`, fold
`processResponse` over the responses, then build the single-element
result list with `transcript = ' '.join(confirmed_results)` and
`final_alignment = alignment` if `time_offsets` and `alignment` is
non-empty, else `[[]]`. -/
def recognize_audio_content (time_offsets : Bool)
    (recognitions : List StreamingRecognizeResponse) :
    Option (List SessionResult) :=
  match recognitions.foldlM (processResponse time_offsets)
      { confirmed_results := [], alignment := [], confidence := 1 } with
  | none => none
  | some s =>
    let final_alignment :=
      if time_offsets ∧ s.alignment ≠ [] then s.alignment else [[]]
    some [{ transcript := String.intercalate " " s.confirmed_results
            alignment := final_alignment
            confidence := s.confidence }]

/-- The producer state in the streaming phase: audio buffer, derived
frame size, `is_initial_request = false`, cursor at `d`. -/
def streamingState (samples : List ℕ) (rate : ℕ) (s : Settings) (d : ℕ) :
    RequestIterator :=
  { audio_content := samples
    settings := s
    audio_frame_rate := rate
    frame_samples_size := rate / 1000 * 200 * 2
    is_initial_request := false
    data_index := d }

theorem init_next (samples : List ℕ) (rate : ℕ) (s : Settings) :
    (RequestIterator.init samples rate s).next =
      (some (build_configuration_request rate s),
        streamingState samples rate s 0) := rfl

theorem streamingState_next (samples : List ℕ) (rate : ℕ) (s : Settings)
    (d : ℕ) :
    (streamingState samples rate s d).next =
      ((if samples.length ≤ d + rate / 1000 * 200 * 2 then none
        else some (StreamingRecognizeRequest.audio_content
          ((samples.drop d).take (rate / 1000 * 200 * 2)))),
        streamingState samples rate s (d + rate / 1000 * 200 * 2)) := by
  unfold RequestIterator.next streamingState
  simp only [Bool.false_eq_true, if_false]
  split <;> rfl

theorem stateAfter_succ_eq (samples : List ℕ) (rate : ℕ) (s : Settings) :
    ∀ n : ℕ, stateAfter (RequestIterator.init samples rate s) (n + 1) =
      streamingState samples rate s (n * (rate / 1000 * 200 * 2)) := by
  intro n
  induction n with
  | zero =>
    show pullState (RequestIterator.init samples rate s) = _
    simp [pullState, init_next]
  | succ m ih =>
    show pullState (stateAfter (RequestIterator.init samples rate s) (m + 1)) = _
    rw [ih]
    simp [pullState, streamingState_next, Nat.succ_mul]

theorem pullPositions_succ_eq (samples : List ℕ) (rate : ℕ) (s : Settings)
    (k : ℕ) :
    pullPositions (RequestIterator.init samples rate s) (k + 1) =
      if samples.length ≤ k * (rate / 1000 * 200 * 2) + rate / 1000 * 200 * 2
      then []
      else List.range' (k * (rate / 1000 * 200 * 2)) (rate / 1000 * 200 * 2) := by
  unfold pullPositions
  rw [stateAfter_succ_eq, streamingState_next]
  by_cases hc : samples.length ≤
      k * (rate / 1000 * 200 * 2) + rate / 1000 * 200 * 2
  · rw [if_pos hc]
    show ([] : List ℕ) = _
    rw [if_pos hc]
  · rw [if_neg hc]
    show List.range' (k * (rate / 1000 * 200 * 2)) _ = _
    rw [if_neg hc, List.length_take, List.length_drop,
      min_eq_left (by omega)]

/-- C1: the claim fails on the code. `_normal_request` slices, advances
`data_index`, and then raises `StopIteration` without returning the slice
whenever the advanced cursor reaches or passes the end of the buffer, so
the final slice is always discarded. For the one-byte buffer `[7]` at
frame rate 1000 (frame size 400), iterating to exhaustion (any fuel)
emits only the configuration chunk: 1 chunk instead of the claimed
`1 + ceil(1/400) = 2`, and the concatenated audio payloads are `[]`,
not `[7]` — the audio byte is never sent. -/
theorem producer_drops_last_frame (n : ℕ) :
    runIterator (n + 1) (RequestIterator.init [7] 1000 sampleSettings) =
      [build_configuration_request 1000 sampleSettings] ∧
    audioConcat
      (runIterator (n + 1) (RequestIterator.init [7] 1000 sampleSettings)) =
      [] := by
  cases n with
  | zero => exact ⟨rfl, rfl⟩
  | succ m => exact ⟨rfl, rfl⟩

/-- C2: the claim fails on the code. No frame-size check exists: with
frame rate 500 the derived frame size is `(500 // 1000) * 200 * 2 = 0`,
and for the non-empty buffer `[1]` every pull after the configuration
chunk returns an empty audio frame with the cursor stuck at 0 — no pull
ever raises `StopIteration`, so iteration never terminates and no
fail-fast configuration error occurs. -/
theorem producer_loops_forever_on_zero_frame_size (n : ℕ) :
    pullOut (stateAfter (RequestIterator.init [1] 500 sampleSettings) n) ≠
      none ∧
    pullOut (stateAfter (RequestIterator.init [1] 500 sampleSettings)
      (n + 1)) = some (StreamingRecognizeRequest.audio_content []) := by
  have key : ∀ m : ℕ,
      pullOut (stateAfter (RequestIterator.init [1] 500 sampleSettings)
        (m + 1)) = some (StreamingRecognizeRequest.audio_content []) := by
    intro m
    rw [pullOut, stateAfter_succ_eq, streamingState_next]
    rfl
  constructor
  · cases n with
    | zero => simp [stateAfter, pullOut, init_next]
    | succ m => rw [key m]; simp
  · exact key n

/-- C3: for the empty audio buffer (and positive derived frame size), the
first pull returns the configuration chunk and the immediately following
pull signals end-of-sequence (`StopIteration`, modelled as `none`). -/
theorem producer_empty_buffer_config_then_stop (rate : ℕ) (s : Settings)
    (_h : 1000 ≤ rate) :
    pullOut (RequestIterator.init [] rate s) =
      some (build_configuration_request rate s) ∧
    pullOut (stateAfter (RequestIterator.init [] rate s) 1) = none := by
  refine ⟨by simp [pullOut, init_next], ?_⟩
  rw [pullOut, stateAfter_succ_eq, streamingState_next]
  simp

/-- Witness for C3 at frame rate 16000 (derived frame size 6400 > 0). -/
theorem producer_empty_buffer_config_then_stop_witness :
    1000 ≤ 16000 ∧
    (pullOut (RequestIterator.init [] 16000 sampleSettings) =
      some (build_configuration_request 16000 sampleSettings) ∧
    pullOut (stateAfter (RequestIterator.init [] 16000 sampleSettings) 1) =
      none) :=
  ⟨by decide,
    producer_empty_buffer_config_then_stop 16000 sampleSettings (by decide)⟩

/-- C4: session invariants of the producer under single-threaded pulls:
the first pull of a fresh producer returns the configuration chunk; no
later pull ever returns a configuration chunk; the cursor `data_index`
is monotonically non-decreasing across pulls; and the buffer positions
covered by the payloads of two distinct audio pulls are disjoint, so no
byte position is delivered twice. -/
theorem producer_session_invariants (samples : List ℕ) (rate : ℕ)
    (s : Settings) (n i j : ℕ) (hij : i < j) :
    pullOut (RequestIterator.init samples rate s) =
      some (build_configuration_request rate s) ∧
    (∀ req,
      pullOut (stateAfter (RequestIterator.init samples rate s) (n + 1)) =
        some req → isConfigRequest req = false) ∧
    (stateAfter (RequestIterator.init samples rate s) n).data_index ≤
      (stateAfter (RequestIterator.init samples rate s) (n + 1)).data_index ∧
    ∀ p, p ∈ pullPositions (RequestIterator.init samples rate s) (i + 1) →
      p ∉ pullPositions (RequestIterator.init samples rate s) (j + 1) := by
  refine ⟨by simp [pullOut, init_next], ?_, ?_, ?_⟩
  · intro req hreq
    rw [pullOut, stateAfter_succ_eq, streamingState_next] at hreq
    by_cases hc : samples.length ≤
        n * (rate / 1000 * 200 * 2) + rate / 1000 * 200 * 2
    · rw [if_pos hc] at hreq
      simp at hreq
    · rw [if_neg hc] at hreq
      simp only [Prod.fst] at hreq
      cases hreq
      rfl
  · cases n with
    | zero =>
      rw [stateAfter_succ_eq]
      simp [stateAfter, RequestIterator.init, streamingState]
    | succ m =>
      rw [stateAfter_succ_eq, stateAfter_succ_eq]
      simp only [streamingState]
      exact Nat.mul_le_mul_right _ (Nat.le_succ m)
  · intro p hp hq
    rw [pullPositions_succ_eq] at hp hq
    by_cases hci : samples.length ≤
        i * (rate / 1000 * 200 * 2) + rate / 1000 * 200 * 2
    · rw [if_pos hci] at hp
      simp at hp
    · rw [if_neg hci] at hp
      by_cases hcj : samples.length ≤
          j * (rate / 1000 * 200 * 2) + rate / 1000 * 200 * 2
      · rw [if_pos hcj] at hq
        simp at hq
      · rw [if_neg hcj] at hq
        rw [List.mem_range'_1] at hp hq
        have hstep : (i + 1) * (rate / 1000 * 200 * 2) ≤
            j * (rate / 1000 * 200 * 2) :=
          Nat.mul_le_mul_right _ hij
        rw [Nat.succ_mul] at hstep
        exact Nat.lt_irrefl p
          (Nat.lt_of_lt_of_le (Nat.lt_of_lt_of_le hp.2 hstep) hq.1)

/-- Witness for C4: a concrete buffer of three bytes at frame rate 16000
with pull indices `i = 0 < 1 = j`. -/
theorem producer_session_invariants_witness :
    0 < 1 ∧
    (pullOut (RequestIterator.init [1, 2, 3] 16000 sampleSettings) =
      some (build_configuration_request 16000 sampleSettings) ∧
    (∀ req,
      pullOut (stateAfter (RequestIterator.init [1, 2, 3] 16000
        sampleSettings) (2 + 1)) = some req →
        isConfigRequest req = false) ∧
    (stateAfter (RequestIterator.init [1, 2, 3] 16000 sampleSettings)
        2).data_index ≤
      (stateAfter (RequestIterator.init [1, 2, 3] 16000 sampleSettings)
        (2 + 1)).data_index ∧
    ∀ p, p ∈ pullPositions (RequestIterator.init [1, 2, 3] 16000
        sampleSettings) (0 + 1) →
      p ∉ pullPositions (RequestIterator.init [1, 2, 3] 16000
        sampleSettings) (1 + 1)) :=
  ⟨by decide,
    producer_session_invariants [1, 2, 3] 16000 sampleSettings 2 0 1
      (by decide)⟩

/-- The two final responses of the aggregation example: transcripts
`"hello"` and `"world"` with confidences `0.9` and `0.8`. -/
def respHello : StreamingRecognizeResponse :=
  { error := { code := 0, message := "" }
    results := [{ is_final := true
                  alternatives := [{ transcript := "hello"
                                     confidence := 9 / 10
                                     words := [] }] }] }

/-- Second final response of the aggregation example. -/
def respWorld : StreamingRecognizeResponse :=
  { error := { code := 0, message := "" }
    results := [{ is_final := true
                  alternatives := [{ transcript := "world"
                                     confidence := 8 / 10
                                     words := [] }] }] }

/-- C5: with time-offsets disabled, aggregating the two final results
`"hello"` (confidence 0.9) and `"world"` (confidence 0.8) yields the
session result `{transcript := "hello world", alignment := [[]],
confidence := 0.8}` — transcripts joined with a single space, placeholder
alignment, min-reduced confidence. -/
theorem aggregator_two_finals_join_with_space :
    recognize_audio_content false [respHello, respWorld] =
      some [{ transcript := "hello world"
              alignment := [[]]
              confidence := 8 / 10 }] := by
  norm_num +decide [recognize_audio_content, processResponse, List.foldlM,
    respHello, respWorld]

/-- C6: with time-offsets enabled, aggregating one final result whose
first alternative has words `("hi", 0, 1/2)`, `("<eps>", 1/2, 1/2)`,
`("there", 1/2, 1)` and confidence `c ≤ 1` yields transcript
`"hi there"`, alignment `[[0, 1/2], [1/2, 1]]`, and confidence `c`:
the `<eps>` sentinel word is skipped, every kept word contributes its
text and its (start, end) pair in order. -/
theorem aggregator_time_offsets_skips_eps (c : ℚ) (hc : c ≤ 1) :
    recognize_audio_content true
      [{ error := { code := 0, message := "" }
         results := [{ is_final := true
                       alternatives := [{ transcript := ""
                                          confidence := c
                                          words :=
                                            [{ word := "hi"
                                               start_time := 0
                                               end_time := 1 / 2 },
                                             { word := "<eps>"
                                               start_time := 1 / 2
                                               end_time := 1 / 2 },
                                             { word := "there"
                                               start_time := 1 / 2
                                               end_time := 1 }] }] }] }] =
      some [{ transcript := "hi there"
              alignment := [[0, 1 / 2], [1 / 2, 1]]
              confidence := c }] := by
  norm_num +decide [recognize_audio_content, processResponse, processWords,
    List.foldlM]
  exact hc

/-- Witness for C6 at confidence `7/10`. -/
theorem aggregator_time_offsets_skips_eps_witness :
    (7 / 10 : ℚ) ≤ 1 ∧
    recognize_audio_content true
      [{ error := { code := 0, message := "" }
         results := [{ is_final := true
                       alternatives := [{ transcript := ""
                                          confidence := 7 / 10
                                          words :=
                                            [{ word := "hi"
                                               start_time := 0
                                               end_time := 1 / 2 },
                                             { word := "<eps>"
                                               start_time := 1 / 2
                                               end_time := 1 / 2 },
                                             { word := "there"
                                               start_time := 1 / 2
                                               end_time := 1 }] }] }] }] =
      some [{ transcript := "hi there"
              alignment := [[0, 1 / 2], [1 / 2, 1]]
              confidence := 7 / 10 }] :=
  ⟨by norm_num,
    aggregator_time_offsets_skips_eps (7 / 10) (by norm_num)⟩

/-- C7: a response sequence containing only interim results — every
response has error code 0 and only non-final results — contributes
nothing: the aggregator yields `{transcript := "", alignment := [[]],
confidence := 1}` for either time-offset mode. -/
theorem aggregator_interim_only_yields_empty (toff : Bool)
    (rs : List StreamingRecognizeResponse)
    (h : ∀ r ∈ rs, r.error.code = 0 ∧
      ∀ res ∈ r.results, res.is_final = false) :
    recognize_audio_content toff rs =
      some [{ transcript := "", alignment := [[]], confidence := 1 }] := by
  have hfold : ∀ l : List StreamingRecognizeResponse,
      (∀ r ∈ l, r.error.code = 0 ∧
        ∀ res ∈ r.results, res.is_final = false) →
      ∀ s : AggState, List.foldlM (processResponse toff) s l = some s := by
    intro l
    induction l with
    | nil => intro _ s; rfl
    | cons r rest ih =>
      intro hl s
      have hr := hl r (List.mem_cons_self r rest)
      have hstep : processResponse toff s r = some s := by
        unfold processResponse
        rw [if_neg (by simp [hr.1])]
        cases hres : r.results with
        | nil => rfl
        | cons first tail =>
          have hff : first.is_final = false :=
            hr.2 first (by rw [hres]; exact List.mem_cons_self first tail)
          simp [hff]
      rw [List.foldlM_cons, hstep]
      exact ih (fun r2 h2 => hl r2 (List.mem_cons_of_mem r h2)) s
  unfold recognize_audio_content
  rw [hfold rs h]
  simp [String.intercalate]

/-- Witness for C7: one interim-only response, time-offsets enabled. -/
theorem aggregator_interim_only_yields_empty_witness :
    (∀ r ∈ [({ error := { code := 0, message := "" }
               results := [{ is_final := false, alternatives := [] }] } :
        StreamingRecognizeResponse)], r.error.code = 0 ∧
      ∀ res ∈ r.results, res.is_final = false) ∧
    recognize_audio_content true
      [{ error := { code := 0, message := "" }
         results := [{ is_final := false, alternatives := [] }] }] =
      some [{ transcript := "", alignment := [[]], confidence := 1 }] :=
  ⟨by decide,
    aggregator_interim_only_yields_empty true
      [{ error := { code := 0, message := "" }
         results := [{ is_final := false, alternatives := [] }] }]
      (by decide)⟩

/-- C8: a response carrying a non-zero error code leaves the aggregator
state (`confirmed_results`, `alignment`, `confidence`) unchanged — the
loop body is the identity on the state — and the reduction over the rest
of the sequence continues exactly as if the error response were absent. -/
theorem aggregator_error_response_preserves_state (toff : Bool)
    (s : AggState) (r : StreamingRecognizeResponse)
    (rest : List StreamingRecognizeResponse) (h : r.error.code ≠ 0) :
    processResponse toff s r = some s ∧
    List.foldlM (processResponse toff) s (r :: rest) =
      List.foldlM (processResponse toff) s rest := by
  have hstep : processResponse toff s r = some s := by
    unfold processResponse
    rw [if_pos h]
  refine ⟨hstep, ?_⟩
  rw [List.foldlM_cons, hstep]
  rfl

/-- The aggregator state at the start of the reduction loop. -/
def emptyAggState : AggState :=
  { confirmed_results := [], alignment := [], confidence := 1 }

/-- An error response with code 3, for concrete evaluations. -/
def errorResp : StreamingRecognizeResponse :=
  { error := { code := 3, message := "boom" }, results := [] }

/-- Witness for C8: an error response with code 3 in front of the empty
rest of the stream, starting from the initial aggregator state. -/
theorem aggregator_error_response_preserves_state_witness :
    errorResp.error.code ≠ 0 ∧
    (processResponse false emptyAggState errorResp = some emptyAggState ∧
    List.foldlM (processResponse false) emptyAggState [errorResp] =
      List.foldlM (processResponse false) emptyAggState []) :=
  ⟨by decide,
    aggregator_error_response_preserves_state false emptyAggState errorResp
      [] (by decide)⟩

/-- C10: the loop body looks only at the first result of a response and,
within it, only at the first alternative. First conjunct: two responses
with error code 0 whose first results agree on `is_final` and on the
head of `alternatives` are processed identically, whatever the later
results, later alternatives, or error messages are. Second conjunct: a
non-final first result makes the whole response contribute nothing, even
when a later result in the same response is final. -/
theorem aggregator_uses_only_first_result_first_alternative (toff : Bool)
    (s : AggState) (f f2 : StreamingRecognitionResult)
    (rest rest2 : List StreamingRecognitionResult) (m m2 : String)
    (hfin : f.is_final = f2.is_final)
    (halt : f.alternatives.head? = f2.alternatives.head?) :
    processResponse toff s
        { error := { code := 0, message := m }, results := f :: rest } =
      processResponse toff s
        { error := { code := 0, message := m2 }, results := f2 :: rest2 } ∧
    (f.is_final = false →
      processResponse toff s
          { error := { code := 0, message := m }, results := f :: rest } =
        some s) := by
  have key : ∀ (g : StreamingRecognitionResult)
      (grest : List StreamingRecognitionResult) (gm : String),
      processResponse toff s
          { error := { code := 0, message := gm }, results := g :: grest } =
        (if g.is_final then
          match g.alternatives.head? with
          | none => none
          | some alt =>
            if toff then
              some { confirmed_results :=
                       (processWords alt.words s.confirmed_results
                         s.alignment).1
                     alignment :=
                       (processWords alt.words s.confirmed_results
                         s.alignment).2
                     confidence := min s.confidence alt.confidence }
            else
              some { confirmed_results :=
                       s.confirmed_results ++ [alt.transcript]
                     alignment := s.alignment
                     confidence := min s.confidence alt.confidence }
        else some s) := by
    intro g grest gm
    unfold processResponse
    rw [if_neg (by simp)]
    cases hgf : g.is_final with
    | false => simp [hgf]
    | true =>
      simp only [hgf, if_true]
      cases hga : g.alternatives with
      | nil => rfl
      | cons alt tail => rfl
  constructor
  · rw [key f rest m, key f2 rest2 m2, hfin, halt]
  · intro hf
    rw [key f rest m]
    simp [hf]

/-- Witness for C10: two responses whose first results are both
non-final with no alternatives; the first response also carries a later
final result with an alternative, which is ignored. -/
theorem aggregator_uses_only_first_result_first_alternative_witness :
    (({ is_final := false, alternatives := [] } :
        StreamingRecognitionResult).is_final =
      ({ is_final := false, alternatives := [] } :
        StreamingRecognitionResult).is_final ∧
    ({ is_final := false, alternatives := [] } :
        StreamingRecognitionResult).alternatives.head? =
      ({ is_final := false, alternatives := [] } :
        StreamingRecognitionResult).alternatives.head?) ∧
    (processResponse false emptyAggState
        { error := { code := 0, message := "" }
          results := [{ is_final := false, alternatives := [] },
            { is_final := true
              alternatives := [{ transcript := "late"
                                 confidence := 1
                                 words := [] }] }] } =
      processResponse false emptyAggState
        { error := { code := 0, message := "x" }
          results := [{ is_final := false, alternatives := [] }] } ∧
    (({ is_final := false, alternatives := [] } :
        StreamingRecognitionResult).is_final = false →
      processResponse false emptyAggState
          { error := { code := 0, message := "" }
            results := [{ is_final := false, alternatives := [] },
              { is_final := true
                alternatives := [{ transcript := "late"
                                   confidence := 1
                                   words := [] }] }] } =
        some emptyAggState)) :=
  ⟨⟨rfl, rfl⟩,
    aggregator_uses_only_first_result_first_alternative false emptyAggState
      { is_final := false, alternatives := [] }
      { is_final := false, alternatives := [] }
      [{ is_final := true
         alternatives := [{ transcript := "late", confidence := 1
                            words := [] }] }]
      [] "" "x" rfl rfl⟩
